import Mathlib

/-!
Shallow embedding of `debug_tools.py` (Market Research System production
debug tool).  HTTP traffic is modelled by passing the outcome of each
request (`ReqResult`) as an explicit parameter; JSON bodies are modelled by
an inductive `Json` type; Python `dict.get`, truthiness, `len`, `str.lower`
and string slicing are embedded as explicit Lean functions.
-/

namespace DebugTools

/-- JSON values, as produced by `response.json()` in the Python source. -/
inductive Json where
  | null
  | bool (b : Bool)
  | num (n : Int)
  | str (s : String)
  | arr (elems : List Json)
  | obj (fields : List (String × Json))

/-- Python `d.get(k)`: returns the stored value (even if `None`) when the key
is present, `none` when absent, and raises `AttributeError` when the receiver
is not a dict. -/
def pyGet (j : Json) (k : String) : Except String (Option Json) :=
  match j with
  | .obj fs => .ok ((fs.find? (fun p => p.1 == k)).map Prod.snd)
  | _ => .error "AttributeError"

/-- Python truthiness of a JSON value. -/
def Json.truthy : Json → Bool
  | .null => false
  | .bool b => b
  | .num n => n != 0
  | .str s => !(s.data.isEmpty)
  | .arr xs => !xs.isEmpty
  | .obj fs => !fs.isEmpty

/-- Python `len()` on a JSON value; raises `TypeError` on values without a
length. -/
def pyLen : Json → Except String Nat
  | .str s => .ok s.length
  | .arr xs => .ok xs.length
  | .obj fs => .ok fs.length
  | _ => .error "TypeError"

/-- An HTTP response as observed by the tool: status code, decoded text,
outcome of `.json()` parsing, elapsed seconds, body size and headers. -/
structure Response where
  status_code : Nat
  text : String
  body : Except String Json
  elapsed : Nat
  content_length : Nat
  headers : List (String × String)

/-- Outcome of one HTTP request: a response, or a raised transport-level
exception carrying `str(e)`. -/
inductive ReqResult where
  | ok (r : Response)
  | exn (msg : String)

/-- Python `s.lower()` (character-wise case folding, as used on the ASCII
keywords and log text). -/
def pyLower (s : String) : String := String.mk (s.data.map Char.toLower)

/-- Python `s.upper()`. -/
def pyUpper (s : String) : String := String.mk (s.data.map Char.toUpper)

/-- Decimal digit character for a digit value. -/
def digitCh (d : Nat) : Char :=
  if d = 0 then '0' else if d = 1 then '1' else if d = 2 then '2'
  else if d = 3 then '3' else if d = 4 then '4' else if d = 5 then '5'
  else if d = 6 then '6' else if d = 7 then '7' else if d = 8 then '8'
  else '9'

/-- Decimal digits of `n` prepended to `acc`, most significant first; the
fuel argument (always called with at least `n + 1`) makes the recursion
structural. -/
def natDigitsAux : Nat → Nat → List Char → List Char
  | 0, _, acc => acc
  | fuel+1, n, acc =>
    if n < 10 then digitCh n :: acc
    else natDigitsAux fuel (n / 10) (digitCh (n % 10) :: acc)

/-- Python `str(n)` for a non-negative integer. -/
def natRepr (n : Nat) : String := String.mk (natDigitsAux (n + 1) n [])

/-- Python string slicing `s[:n]` (counts code points, like Lean `Char`s). -/
def pyTake (n : Nat) (s : String) : String := String.mk (s.data.take n)

/-- The record stored per endpoint by `test_basic_endpoints`; optional
fields model dict keys that are only sometimes set. -/
structure EndpointRecord where
  status_code : Option Nat := none
  success : Bool
  response_time : Option Nat := none
  content_length : Option Nat := none
  headers : Option (List (String × String)) := none
  json_data : Option Json := none
  text_data : Option String := none
  error_text : Option String := none
  error : Option String := none

/-- One iteration of the loop body of `test_basic_endpoints`
(`debug_tools.py` lines 40-70) for a single endpoint. -/
def probeEndpoint (req : ReqResult) : EndpointRecord :=
  match req with
  | .exn e => { success := false, error := some e }
  | .ok r =>
    let base : EndpointRecord :=
      { status_code := some r.status_code
        success := r.status_code == 200
        response_time := some r.elapsed
        content_length := some r.content_length
        headers := some r.headers }
    if r.status_code == 200 then
      match r.body with
      | .ok j => { base with json_data := some j }
      | .error _ => { base with text_data := some (pyTake 500 r.text) }
    else
      { base with error_text := some r.text }

/-- Embedding of `test_basic_endpoints`: probes the three fixed endpoints and returns the
name-keyed results, given the outcome of each GET. -/
def test_basic_endpoints (health prompts test : ReqResult) :
    List (String × EndpointRecord) :=
  [("health", probeEndpoint health),
   ("prompts", probeEndpoint prompts),
   ("test", probeEndpoint test)]

/-- Result of `simulate_research_flow`: either a dict with only an `error`
key, or the success dict built at lines 111-116 of the source. -/
inductive FlowResult where
  | error (msg : String)
  | ok (prompts_count : Nat) (research_endpoint_exists : Bool)
       (test_request_valid : Bool) (business_name : String)
  deriving DecidableEq

/-- Embedding of `len(prompts_data.get('data', {}).get('prompts', []))` with Python
exception behaviour (`AttributeError` on non-dicts, `TypeError` on
`len` of unsized values). -/
def promptsCount (pd : Json) : Except String Nat := do
  let d ← pyGet pd "data"
  let p ← pyGet (d.getD (.obj [])) "prompts"
  pyLen (p.getD (.arr []))

/-- Embedding of `simulate_research_flow` (`debug_tools.py` lines 74-119), given the
outcome of the prompt-listing GET and of the HEAD request to the conduct
endpoint.  The second component records whether the HEAD request was
issued at all. -/
def simulate_research_flow (business_name : String)
    (promptsReq headReq : ReqResult) : FlowResult × Bool :=
  match promptsReq with
  | .exn e => (.error ("プロンプト取得例外: " ++ e), false)
  | .ok r =>
    if r.status_code ≠ 200 then
      (.error ("プロンプト取得失敗: " ++ natRepr r.status_code), false)
    else
      match r.body with
      | .error e => (.error ("プロンプト取得例外: " ++ e), false)
      | .ok pd =>
        match promptsCount pd with
        | .error e => (.error ("プロンプト取得例外: " ++ e), false)
        | .ok n =>
          match headReq with
          | .exn e => (.error ("調査フロー確認例外: " ++ e), true)
          | .ok hr =>
            (.ok n (hr.status_code != 404) true business_name, true)

/-- One dependency entry built by `check_api_dependencies`; optional fields
model dict keys that are only sometimes set. -/
structure DepEntry where
  status : String
  response_time : Option Nat := none
  test_result : Option Json := none
  error : Option String := none

/-- Notion branch of `check_api_dependencies` (lines 128-137). -/
def notionCheck (req : ReqResult) : DepEntry :=
  match req with
  | .ok r =>
    { status := if r.status_code == 200 then "up" else "down"
      response_time := some r.elapsed }
  | .exn e => { status := "error", error := some e }

/-- Gemini branch of `check_api_dependencies` (lines 140-151): indirect
check through the application's own test endpoint. -/
def geminiCheck (req : ReqResult) : DepEntry :=
  match req with
  | .exn e => { status := "error", error := some e }
  | .ok r =>
    if r.status_code == 200 then
      match r.body with
      | .error e => { status := "error", error := some e }
      | .ok td =>
        match pyGet td "gemini" with
        | .error e => { status := "error", error := some e }
        | .ok g =>
          { status := if (g.getD Json.null).truthy then "up" else "down"
            test_result := some (g.getD (Json.bool false)) }
    else
      { status := "unknown", error := some "テストエンドポイント応答なし" }

/-- Embedding of `check_api_dependencies`, given the outcomes of the Notion status GET
and of the application test-endpoint GET. -/
def check_api_dependencies (notionReq testReq : ReqResult) :
    List (String × DepEntry) :=
  [("notion", notionCheck notionReq), ("gemini", geminiCheck testReq)]

/-- The fixed keyword configuration of `analyze_error_patterns`
(lines 163-172). -/
def error_patterns : List (String × List String) :=
  [("api_timeout", ["timeout", "ETIMEDOUT", "request timeout"]),
   ("rate_limit", ["rate limit", "429", "too many requests"]),
   ("notion_error", ["notion", "NOTION_", "notion api"]),
   ("gemini_error", ["gemini", "google", "generative-ai"]),
   ("memory_error", ["memory", "heap", "out of memory"]),
   ("network_error", ["ECONNRESET", "ENOTFOUND", "network"]),
   ("json_parse_error", ["JSON.parse", "unexpected token", "json"]),
   ("typescript_error", ["TypeScript", ".ts:", "compilation"])]

/-- Per-category match record (`matched_keywords` / `count`). -/
structure PatternMatch where
  matched_keywords : List String
  count : Nat
  deriving DecidableEq

/-- Result of `analyze_error_patterns`: either the error dict returned when
no log text is supplied, or the full analysis dict of lines 187-192. -/
inductive AnalyzeResult where
  | error (msg : String)
  | ok (total_patterns : Nat) (patterns : List (String × PatternMatch))
       (log_length : Nat) (analysis_time : String)
  deriving DecidableEq

/-- Python substring containment `ne in hay`, on character lists. -/
def isSubstr (ne : List Char) : List Char → Bool
  | [] => ne.isEmpty
  | c :: rest => ne.isPrefixOf (c :: rest) || isSubstr ne rest

/-- Keywords of one category that occur (case-folded) in the log text
(lines 176-179). -/
def categoryMatches (log_text : String) (keywords : List String) :
    List String :=
  keywords.filter (fun k => isSubstr (pyLower k).data (pyLower log_text).data)

/-- The `found_patterns` dict (lines 174-185): categories with no match are
omitted. -/
def foundPatterns (log_text : String) : List (String × PatternMatch) :=
  error_patterns.filterMap (fun p =>
    let ms := categoryMatches log_text p.2
    if ms.isEmpty then none
    else some (p.1, { matched_keywords := ms, count := ms.length }))

/-- Python falsiness of the optional `log_text` argument
(`if not log_text:`): `None` and the empty string are falsy. -/
def pyFalsyStr : Option String → Bool
  | none => true
  | some s => s.data.isEmpty

/-- Embedding of `analyze_error_patterns` (lines 155-192); `now` is the ISO timestamp
taken at line 191. -/
def analyze_error_patterns (log_text : Option String) (now : String) :
    AnalyzeResult :=
  if pyFalsyStr log_text then .error "ログテキストが必要です"
  else
    let t := log_text.getD ""
    .ok (foundPatterns t).length (foundPatterns t) t.length now

/-- The `patterns` field of an analysis result, when present. -/
def AnalyzeResult.patternsOf : AnalyzeResult → Option (List (String × PatternMatch))
  | .error _ => none
  | .ok _ p _ _ => some p

/-- The `total_patterns` field of an analysis result, when present. -/
def AnalyzeResult.totalOf : AnalyzeResult → Option Nat
  | .error _ => none
  | .ok tp _ _ _ => some tp

/-- Report lines for the basic endpoint section (lines 212-216). -/
def endpointLines : List (String × EndpointRecord) → List String
  | [] => []
  | (name, r) :: rest =>
    (if r.success then ["- **" ++ name ++ "**: ✅ 正常"]
     else ["- **" ++ name ++ "**: ❌ 異常",
           "  - エラー: " ++ r.error.getD "Unknown"]) ++ endpointLines rest

/-- Report lines for the flow-test section (lines 223-229). -/
def flowLines : FlowResult → List String
  | .error e => ["- ❌ 調査フロー: エラー発生", "  - エラー: " ++ e]
  | .ok n ex _ _ =>
    ["- ✅ 調査フロー: 基本構造は正常",
     "  - プロンプト数: " ++ natRepr n,
     "  - 調査エンドポイント: " ++ (if ex then "存在" else "不明")]

/-- Report lines for the dependency section (lines 236-240). -/
def depLines : List (String × DepEntry) → List String
  | [] => []
  | (service, r) :: rest =>
    (if r.status == "up" then ["- **" ++ pyUpper service ++ "**: ✅ 正常"]
     else ["- **" ++ pyUpper service ++ "**: ❌ 異常",
           "  - エラー: " ++ r.error.getD "Unknown"]) ++ depLines rest

/-- The full `report_lines` list assembled by `generate_debug_report`
(lines 204-258); `ts` is the formatted generation timestamp. -/
def report_lines (base_url ts : String)
    (basic : List (String × EndpointRecord)) (flow : FlowResult)
    (deps : List (String × DepEntry)) : List String :=
  ["# 🔍 Market Research System - デバッグレポート",
   "**生成日時**: " ++ ts,
   "**対象環境**: " ++ base_url,
   "",
   "## 📊 基本エンドポイントテスト"]
  ++ endpointLines basic
  ++ ["", "## 🧪 調査フローテスト"]
  ++ flowLines flow
  ++ ["", "## 🔗 外部API依存関係"]
  ++ depLines deps
  ++ ["",
      "## 🚨 推奨アクション",
      "",
      "### 異常が検出された場合:",
      "1. Railway ダッシュボードでログを確認",
      "2. 環境変数の設定を確認",
      "3. API制限の状況を確認",
      "4. このレポートを元にバグレポートを作成",
      "",
      "### 正常な場合:",
      "1. 具体的なバグの再現手順を詳細に記録",
      "2. ブラウザのDeveloper Toolsでエラーを確認",
      "3. 特定の操作でのみ発生する問題かを調査",
      "",
      "**レポート生成ツール**: `python3 debug_tools.py --full-report`"]

/-- Python `"\n".join(lines)`. -/
def joinLines : List String → String
  | [] => ""
  | [l] => l
  | l :: l₂ :: ls => l ++ "\n" ++ joinLines (l₂ :: ls)

/-- Embedding of `generate_debug_report` (lines 194-260): runs the three checks with the
given request outcomes (`fpromptsReq`/`headReq` are the flow simulation's
own fresh requests) and joins the report lines. -/
def generate_debug_report (base_url ts : String)
    (healthReq promptsReq testReq fpromptsReq headReq
     notionReq gtestReq : ReqResult) : String :=
  joinLines (report_lines base_url ts
    (test_basic_endpoints healthReq promptsReq testReq)
    (simulate_research_flow "テスト事業" fpromptsReq headReq).1
    (check_api_dependencies notionReq gtestReq))

/-- Number of positions of `hay` at which `ne` occurs as a contiguous
substring (occurrences may overlap). -/
def countSub (ne : List Char) : List Char → Nat
  | [] => 0
  | c :: rest => (if ne.isPrefixOf (c :: rest) then 1 else 0) + countSub ne rest

/-- Occurrence count of one string inside another. -/
def countOcc (ne hay : String) : Nat := countSub ne.data hay.data

/-- The join `"\n".join` on character lists. -/
def joinNl : List (List Char) → List Char
  | [] => []
  | [l] => l
  | l :: l₂ :: ls => l ++ '\n' :: joinNl (l₂ :: ls)

/-- A prefix test cannot see past a separator character that the needle
does not contain. -/
theorem isPrefixOf_append_sep (x : Char) (ne l₂ : List Char) :
    ∀ l₁, x ∉ ne → (ne.isPrefixOf (l₁ ++ x :: l₂) = ne.isPrefixOf l₁) := by
  induction ne with
  | nil => intro l₁ _; cases l₁ <;> rfl
  | cons h t ih =>
    intro l₁ hx
    cases l₁ with
    | nil =>
      have hhx : (h == x) = false := by
        rw [beq_eq_false_iff_ne]
        intro e; exact hx (by rw [← e]; exact List.mem_cons_self h t)
      show ((h == x) && t.isPrefixOf l₂) = (h :: t).isPrefixOf []
      rw [hhx]
      rfl
    | cons a as =>
      have hxt : x ∉ t := fun m => hx (List.mem_cons_of_mem h m)
      show ((h == a) && t.isPrefixOf (as ++ x :: l₂)) = ((h == a) && t.isPrefixOf as)
      rw [ih as hxt]

/-- A nonempty needle whose head is absent from the haystack never occurs. -/
theorem countSub_of_head_not_mem (c : Char) (cs : List Char) :
    ∀ hay, c ∉ hay → countSub (c :: cs) hay = 0 := by
  intro hay
  induction hay with
  | nil => intro _; rfl
  | cons h t ih =>
    intro hm
    have h1 : (c == h) = false := by
      rw [beq_eq_false_iff_ne]
      intro e; exact hm (by rw [e]; exact List.mem_cons_self h t)
    have h2 : c ∉ t := fun m => hm (List.mem_cons_of_mem h m)
    show (if (c :: cs).isPrefixOf (h :: t) then 1 else 0) + countSub (c :: cs) t = 0
    rw [ih h2]
    show (if ((c == h) && cs.isPrefixOf t) then 1 else 0) + 0 = 0
    rw [h1]
    rfl

/-- Occurrence counting distributes over a separator the needle avoids. -/
theorem countSub_append_sep (x c : Char) (cs l₂ : List Char)
    (hx : x ∉ c :: cs) :
    ∀ l₁, countSub (c :: cs) (l₁ ++ x :: l₂) =
      countSub (c :: cs) l₁ + countSub (c :: cs) l₂ := by
  intro l₁
  induction l₁ with
  | nil =>
    have hcx : (c == x) = false := by
      rw [beq_eq_false_iff_ne]
      intro e; exact hx (by rw [e]; exact List.mem_cons_self x cs)
    show (if (c :: cs).isPrefixOf (x :: l₂) then 1 else 0) + countSub (c :: cs) l₂
      = countSub (c :: cs) [] + countSub (c :: cs) l₂
    have : (c :: cs).isPrefixOf (x :: l₂) = false := by
      show ((c == x) && cs.isPrefixOf l₂) = false
      rw [hcx]; rfl
    rw [this]
    rfl
  | cons a as ih =>
    show (if (c :: cs).isPrefixOf (a :: (as ++ x :: l₂)) then 1 else 0)
        + countSub (c :: cs) (as ++ x :: l₂)
      = ((if (c :: cs).isPrefixOf (a :: as) then 1 else 0) + countSub (c :: cs) as)
        + countSub (c :: cs) l₂
    rw [ih]
    have hp := isPrefixOf_append_sep x (c :: cs) l₂ (a :: as) hx
    rw [List.cons_append] at hp
    rw [hp]
    omega

/-- Counting a newline-free needle in a joined line list sums the per-line
counts. -/
theorem countSub_joinNl (c : Char) (cs : List Char) (hnl : '\n' ∉ c :: cs) :
    ∀ Ls : List (List Char),
      countSub (c :: cs) (joinNl Ls) = (Ls.map (countSub (c :: cs))).sum
  | [] => rfl
  | [l] => by simp [joinNl]
  | l :: l₂ :: ls => by
    show countSub (c :: cs) (l ++ '\n' :: joinNl (l₂ :: ls)) = _
    rw [countSub_append_sep '\n' c cs (joinNl (l₂ :: ls)) hnl l,
        countSub_joinNl c cs hnl (l₂ :: ls)]
    simp

/-- The characters of the joined report are the joined characters of the
lines. -/
theorem joinLines_data :
    ∀ Ls : List String, (joinLines Ls).data = joinNl (Ls.map String.data)
  | [] => rfl
  | [l] => rfl
  | l :: l₂ :: ls => by
    show (l ++ "\n" ++ joinLines (l₂ :: ls)).data = _
    rw [String.data_append, String.data_append, joinLines_data (l₂ :: ls)]
    simp [joinNl]

/-- Every character produced by `digitCh` is a decimal digit. -/
theorem digitCh_mem (d : Nat) :
    digitCh d ∈ ['0', '1', '2', '3', '4', '5', '6', '7', '8', '9'] := by
  unfold digitCh
  repeat' split
  all_goals simp

/-- Every character produced by `natDigitsAux` comes from the accumulator
or is a decimal digit. -/
theorem natDigitsAux_subset :
    ∀ (fuel n : Nat) (acc : List Char), ∀ c ∈ natDigitsAux fuel n acc,
      c ∈ acc ∨ c ∈ ['0', '1', '2', '3', '4', '5', '6', '7', '8', '9']
  | 0, _, _, c, hc => Or.inl hc
  | fuel+1, n, acc, c, hc => by
    rw [natDigitsAux] at hc
    split at hc
    · rcases List.mem_cons.mp hc with rfl | h
      · exact Or.inr (digitCh_mem n)
      · exact Or.inl h
    · rcases natDigitsAux_subset fuel (n / 10) _ c hc with h | h
      · rcases List.mem_cons.mp h with rfl | h'
        · exact Or.inr (digitCh_mem (n % 10))
        · exact Or.inl h'
      · exact Or.inr h

/-- The decimal rendering of a number contains only digit characters. -/
theorem natRepr_digits (n : Nat) :
    ∀ c ∈ (natRepr n).data, c ∈ ['0', '1', '2', '3', '4', '5', '6', '7', '8', '9'] := by
  intro c hc
  rcases natDigitsAux_subset (n + 1) n [] c hc with h | h
  · simp at h
  · exact h

/-- The success flag recorded for a completed response depends only on the
status code. -/
theorem probeEndpoint_ok_success (r : Response) :
    (probeEndpoint (.ok r)).success = (r.status_code == 200) := by
  show (let base : EndpointRecord :=
      { status_code := some r.status_code
        success := r.status_code == 200
        response_time := some r.elapsed
        content_length := some r.content_length
        headers := some r.headers };
    if r.status_code == 200 then
      match r.body with
      | .ok j => { base with json_data := some j }
      | .error _ => { base with text_data := some (pyTake 500 r.text) }
    else
      { base with error_text := some r.text }).success = (r.status_code == 200)
  split
  · cases r.body <;> rfl
  · rfl

/-- The executable substring test decides list infix containment. -/
theorem isSubstr_correct (ne : List Char) :
    ∀ hay, isSubstr ne hay = true ↔ ne <:+: hay
  | [] => by
    simp [isSubstr, List.infix_nil, List.isEmpty_iff]
  | c :: rest => by
    rw [isSubstr, Bool.or_eq_true, List.isPrefixOf_iff_prefix,
        isSubstr_correct ne rest, List.infix_cons_iff]

/-- A `filterMap` whose function returns `none` on every element of the
list is empty. -/
theorem filterMap_eq_nil_of_none {α β : Type} (f : α → Option β) :
    ∀ l : List α, (∀ a ∈ l, f a = none) → l.filterMap f = []
  | [], _ => rfl
  | a :: as, h => by
    rw [List.filterMap_cons, h a (List.mem_cons_self a as)]
    exact filterMap_eq_nil_of_none f as (fun x hx => h x (List.mem_cons_of_mem a hx))

/-- Concrete response builder used by witnesses and counterexamples. -/
def respOf (code : Nat) (txt : String) (b : Except String Json) : Response :=
  { status_code := code, text := txt, body := b, elapsed := 1,
    content_length := txt.length, headers := [] }

/-- A string with a nonempty character list is not the empty string. -/
theorem ne_empty_of_data_ne_nil {t : String} (h : t.data ≠ []) : t ≠ "" := by
  intro he
  exact h (by rw [he])

/-- The per-probe behaviour claimed by the spec for `test_basic_endpoints`:
on a completed response the success flag mirrors `status == 200` and non-200
responses carry the raw error text; on a transport exception the record has
only the failure flag and the exception message. -/
def probeSpec : ReqResult → EndpointRecord → Prop
  | .ok r, rec =>
    rec.status_code = some r.status_code
    ∧ (rec.success = true ↔ r.status_code = 200)
    ∧ (r.status_code ≠ 200 → rec.error_text = some r.text ∧ rec.success = false)
  | .exn e, rec =>
    rec.success = false ∧ rec.error = some e ∧ rec.status_code = none

/-- C5: every probed endpoint's record in `test_basic_endpoints` has
`success = true` iff the HTTP status is 200; non-200 responses populate
`error_text` with the response text; a transport exception yields
`success = false` with the exception message and no status code. -/
theorem claim_C5_probe_success_iff_200 (health prompts test : ReqResult) :
    test_basic_endpoints health prompts test =
      [("health", probeEndpoint health), ("prompts", probeEndpoint prompts),
       ("test", probeEndpoint test)]
    ∧ ∀ req : ReqResult, probeSpec req (probeEndpoint req) := by
  refine ⟨rfl, fun req => ?_⟩
  cases req with
  | exn e => exact ⟨rfl, rfl, rfl⟩
  | ok r =>
    by_cases h200 : r.status_code = 200
    · cases hb : r.body <;>
        simp [probeSpec, probeEndpoint, h200, hb]
    · have hb200 : (r.status_code == 200) = false := by
        rw [beq_eq_false_iff_ne]; exact h200
      simp [probeSpec, probeEndpoint, hb200, h200]

/-- Witness for C5 at concrete inputs: a 500 response and a transport
exception. -/
theorem claim_C5_witness :
    probeSpec (.exn "Connection refused") (probeEndpoint (.exn "Connection refused"))
    ∧ probeSpec (.ok (respOf 500 "oops" (.error "nojson")))
        (probeEndpoint (.ok (respOf 500 "oops" (.error "nojson")))) :=
  ⟨(claim_C5_probe_success_iff_200 (.exn "Connection refused") (.exn "x") (.exn "x")).2 _,
   (claim_C5_probe_success_iff_200 (.exn "x") (.exn "x") (.exn "x")).2 _⟩

/-- C2: for a probed endpoint whose 200 response body fails to parse as
JSON, the stored body text is exactly the first 500 characters of the raw
response text; and any stored body text is always that 500-character
prefix. -/
theorem claim_C2_truncated_text_fallback (health prompts test : ReqResult)
    (name : String) (rec : EndpointRecord)
    (hmem : (name, rec) ∈ test_basic_endpoints health prompts test)
    (r : Response) (hrec : rec = probeEndpoint (.ok r))
    (e : String) (hbody : r.body = .error e) :
    (r.status_code = 200 → rec.text_data = some (pyTake 500 r.text))
    ∧ (∀ s, rec.text_data = some s → s = pyTake 500 r.text) := by
  subst hrec
  constructor
  · intro h200
    simp [probeEndpoint, h200, hbody]
  · intro s hs
    by_cases h200 : r.status_code = 200
    · simp [probeEndpoint, h200, hbody] at hs
      exact hs.symm
    · have hb200 : (r.status_code == 200) = false := by
        rw [beq_eq_false_iff_ne]; exact h200
      simp [probeEndpoint, hb200] at hs

/-- Witness for C2: a concrete 200 response with an unparsable body. -/
theorem claim_C2_witness :
    ((respOf 200 "plain text" (.error "Expecting value")).status_code = 200 →
      (probeEndpoint (.ok (respOf 200 "plain text" (.error "Expecting value")))).text_data
        = some (pyTake 500 (respOf 200 "plain text" (.error "Expecting value")).text))
    ∧ ∀ s,
        (probeEndpoint (.ok (respOf 200 "plain text" (.error "Expecting value")))).text_data
          = some s →
        s = pyTake 500 (respOf 200 "plain text" (.error "Expecting value")).text :=
  claim_C2_truncated_text_fallback
    (.ok (respOf 200 "plain text" (.error "Expecting value")))
    (.exn "x") (.exn "x") "health" _
    (by simp [test_basic_endpoints]) _ rfl "Expecting value" rfl

/-- C3: if the prompt-listing GET raises or returns a non-200 status, the
flow simulation returns a record holding only an error message, and the
HEAD request to the conduct endpoint is never issued (second component
`false`). -/
theorem claim_C3_flow_fail_fast (business_name : String)
    (promptsReq headReq : ReqResult) :
    (∀ e, promptsReq = .exn e →
      simulate_research_flow business_name promptsReq headReq =
        (.error ("プロンプト取得例外: " ++ e), false))
    ∧ (∀ r, promptsReq = .ok r → r.status_code ≠ 200 →
      simulate_research_flow business_name promptsReq headReq =
        (.error ("プロンプト取得失敗: " ++ natRepr r.status_code), false)) := by
  constructor
  · intro e he
    subst he
    rfl
  · intro r hr h200
    subst hr
    simp [simulate_research_flow, h200]

/-- Witness for C3: a concrete raised GET and a concrete 503 response;
in both cases the HEAD outcome (here a 200 response) is never consulted. -/
theorem claim_C3_witness :
    (simulate_research_flow "テスト事業" (.exn "timeout")
        (.ok (respOf 200 "" (.ok .null))) =
      (.error ("プロンプト取得例外: " ++ "timeout"), false))
    ∧ (simulate_research_flow "テスト事業"
        (.ok (respOf 503 "busy" (.ok .null)))
        (.ok (respOf 200 "" (.ok .null))) =
      (.error ("プロンプト取得失敗: " ++ natRepr (respOf 503 "busy" (.ok .null)).status_code),
       false)) :=
  ⟨(claim_C3_flow_fail_fast "テスト事業" _ _).1 "timeout" rfl,
   (claim_C3_flow_fail_fast "テスト事業" _ _).2
     (respOf 503 "busy" (.ok .null)) rfl (by decide)⟩

/-- C4: in `check_api_dependencies` the gemini entry is `up`/`down`
according to the boolean `gemini` field when the test endpoint returns 200,
`unknown` on a non-200 status, and `error` with the exception message when
the GET raises. -/
theorem claim_C4_gemini_dependency_status (notionReq testReq : ReqResult) :
    check_api_dependencies notionReq testReq =
      [("notion", notionCheck notionReq), ("gemini", geminiCheck testReq)]
    ∧ (∀ r td b, testReq = .ok r → r.status_code = 200 → r.body = .ok td →
        pyGet td "gemini" = .ok (some (.bool b)) →
        (geminiCheck testReq).status = if b then "up" else "down")
    ∧ (∀ r, testReq = .ok r → r.status_code ≠ 200 →
        (geminiCheck testReq).status = "unknown"
        ∧ (geminiCheck testReq).error = some "テストエンドポイント応答なし")
    ∧ (∀ e, testReq = .exn e →
        (geminiCheck testReq).status = "error"
        ∧ (geminiCheck testReq).error = some e) := by
  refine ⟨rfl, ?_, ?_, ?_⟩
  · intro r td b hr h200 hbody hget
    subst hr
    simp [geminiCheck, h200, hbody, hget, Json.truthy]
  · intro r hr h200
    subst hr
    have hb200 : (r.status_code == 200) = false := by
      rw [beq_eq_false_iff_ne]; exact h200
    simp [geminiCheck, hb200]
  · intro e he
    subst he
    exact ⟨rfl, rfl⟩

/-- Witness for C4: a 200 test response with `gemini: false`, a 404
response, and an exception. -/
theorem claim_C4_witness :
    ((geminiCheck (.ok (respOf 200 "" (.ok (.obj [("gemini", .bool false)]))))).status
      = if false then "up" else "down")
    ∧ ((geminiCheck (.ok (respOf 404 "" (.ok .null)))).status = "unknown")
    ∧ ((geminiCheck (.exn "DNS failure")).status = "error") :=
  ⟨(claim_C4_gemini_dependency_status (.exn "x") _).2.1 _ _ false rfl rfl rfl rfl,
   ((claim_C4_gemini_dependency_status (.exn "x") _).2.2.1 _ rfl (by decide)).1,
   ((claim_C4_gemini_dependency_status (.exn "x") _).2.2.2 "DNS failure" rfl).1⟩

/-- C7: calling the analyzer with no log text returns the bare error record
and no analysis fields (`patterns` and `total_patterns` are absent). -/
theorem claim_C7_no_text_error_record (now : String) :
    analyze_error_patterns none now = .error "ログテキストが必要です"
    ∧ (analyze_error_patterns none now).patternsOf = none
    ∧ (analyze_error_patterns none now).totalOf = none :=
  ⟨rfl, rfl, rfl⟩

/-- C8: the empty string is falsy in Python, so an empty log text takes the
same early-exit path as a missing one and returns the identical error
record. -/
theorem claim_C8_empty_string_like_none (now : String) :
    analyze_error_patterns (some "") now = analyze_error_patterns none now
    ∧ analyze_error_patterns (some "") now = .error "ログテキストが必要です"
    ∧ (analyze_error_patterns (some "") now).patternsOf = none :=
  ⟨rfl, rfl, rfl⟩

/-- C6: a log text containing "rate limit exceeded (429)" yields a
rate-limit category entry whose matched keywords include "rate limit" and
"429"; a nonempty text matching no configured keyword (case-insensitively)
yields an empty patterns mapping and `total_patterns = 0`. -/
theorem claim_C6_rate_limit_classification (t now : String) :
    (isSubstr ("rate limit exceeded (429)").data t.data = true →
      analyze_error_patterns (some t) now =
        .ok (foundPatterns t).length (foundPatterns t) t.length now
      ∧ ∃ pm : PatternMatch,
          ("rate_limit", pm) ∈ foundPatterns t
          ∧ "rate limit" ∈ pm.matched_keywords
          ∧ "429" ∈ pm.matched_keywords)
    ∧ (t ≠ "" →
      (∀ p ∈ error_patterns, ∀ k ∈ p.2,
        isSubstr (pyLower k).data (pyLower t).data = false) →
      analyze_error_patterns (some t) now = .ok 0 [] t.length now) := by
  constructor
  · intro h
    have hinf : ("rate limit exceeded (429)").data <:+: t.data :=
      (isSubstr_correct _ _).mp h
    have htne : t.data ≠ [] := by
      intro hnil
      rw [hnil] at hinf
      have := List.infix_nil.mp hinf
      simp at this
    have hfalsy : pyFalsyStr (some t) = false := by
      show t.data.isEmpty = false
      cases ht : t.data with
      | nil => exact absurd ht htne
      | cons a l => rfl
    have hana : analyze_error_patterns (some t) now =
        .ok (foundPatterns t).length (foundPatterns t) t.length now := by
      simp [analyze_error_patterns, hfalsy]
    have hlow : ∀ kw : String, kw.data <:+: ("rate limit exceeded (429)").data →
        (pyLower kw).data <:+: (pyLower t).data := by
      intro kw hkw
      exact (hkw.trans hinf).map Char.toLower
    have hm1 : isSubstr (pyLower "rate limit").data (pyLower t).data = true :=
      (isSubstr_correct _ _).mpr (hlow "rate limit" (by decide))
    have hm2 : isSubstr (pyLower "429").data (pyLower t).data = true :=
      (isSubstr_correct _ _).mpr (hlow "429" (by decide))
    have hmem1 : "rate limit" ∈ categoryMatches t ["rate limit", "429", "too many requests"] :=
      List.mem_filter.mpr ⟨by simp, hm1⟩
    have hmem2 : "429" ∈ categoryMatches t ["rate limit", "429", "too many requests"] :=
      List.mem_filter.mpr ⟨by simp, hm2⟩
    have hne : (categoryMatches t ["rate limit", "429", "too many requests"]).isEmpty = false := by
      cases hc : categoryMatches t ["rate limit", "429", "too many requests"] with
      | nil => rw [hc] at hmem1; simp at hmem1
      | cons a l => rfl
    refine ⟨hana,
      { matched_keywords := categoryMatches t ["rate limit", "429", "too many requests"],
        count := (categoryMatches t ["rate limit", "429", "too many requests"]).length },
      ?_, hmem1, hmem2⟩
    apply List.mem_filterMap.mpr
    refine ⟨("rate_limit", ["rate limit", "429", "too many requests"]),
      by simp [error_patterns], ?_⟩
    show (if (categoryMatches t ["rate limit", "429", "too many requests"]).isEmpty
        then none else some _) = some _
    rw [hne]
    rfl
  · intro htne hall
    have hdne : t.data ≠ [] := by
      intro hnil
      apply htne
      cases t
      simp_all
    have hfalsy : pyFalsyStr (some t) = false := by
      show t.data.isEmpty = false
      cases ht : t.data with
      | nil => exact absurd ht hdne
      | cons a l => rfl
    have hfp : foundPatterns t = [] := by
      apply filterMap_eq_nil_of_none
      intro p hp
      have hcm : categoryMatches t p.2 = [] := by
        apply List.filter_eq_nil_iff.mpr
        intro k hk
        simp [hall p hp k hk]
      show (if (categoryMatches t p.2).isEmpty then none else some _) = none
      rw [hcm]
      rfl
    simp [analyze_error_patterns, hfalsy, hfp]

/-- Witness for C6 at concrete inputs: the canonical rate-limit log line,
and a text with no configured keywords. -/
theorem claim_C6_witness :
    (analyze_error_patterns (some "rate limit exceeded (429)") "T" =
        .ok (foundPatterns "rate limit exceeded (429)").length
          (foundPatterns "rate limit exceeded (429)")
          ("rate limit exceeded (429)").length "T"
      ∧ ∃ pm : PatternMatch,
          ("rate_limit", pm) ∈ foundPatterns "rate limit exceeded (429)"
          ∧ "rate limit" ∈ pm.matched_keywords
          ∧ "429" ∈ pm.matched_keywords)
    ∧ analyze_error_patterns (some "zzz") "T" = .ok 0 [] ("zzz").length "T" :=
  ⟨(claim_C6_rate_limit_classification "rate limit exceeded (429)" "T").1 (by decide),
   (claim_C6_rate_limit_classification "zzz" "T").2 (by decide) (by decide)⟩

/-- C9: every category entry returned by the analyzer has `count` equal to
the number of matched keywords, at least one matched keyword, and a
matched-keyword list that is a subsequence of that category's configured
keyword list. -/
theorem claim_C9_pattern_entry_invariants (t now : String) (tot : Nat)
    (pats : List (String × PatternMatch)) (len : Nat) (time : String)
    (h : analyze_error_patterns (some t) now = .ok tot pats len time) :
    ∀ name pm, (name, pm) ∈ pats →
      pm.count = pm.matched_keywords.length
      ∧ 1 ≤ pm.matched_keywords.length
      ∧ ∃ kws, (name, kws) ∈ error_patterns ∧ pm.matched_keywords.Sublist kws := by
  unfold analyze_error_patterns at h
  split at h
  · exact absurd h (by simp)
  · injection h with h1 h2 h3 h4
    subst h2
    intro name pm hmem
    obtain ⟨⟨name', kws⟩, hin, hf⟩ := List.mem_filterMap.mp hmem
    dsimp only at hf
    by_cases he : (categoryMatches ((some t).getD "") kws).isEmpty = true
    · rw [if_pos he] at hf
      exact absurd hf (by simp)
    · rw [if_neg he] at hf
      injection hf with hpair
      injection hpair with hname hpm
      subst hname
      subst hpm
      refine ⟨rfl, ?_, kws, hin, List.filter_sublist kws⟩
      cases hc : categoryMatches ((some t).getD "") kws with
      | nil => rw [hc] at he; exact absurd rfl he
      | cons a l => simp [hc]

/-- Witness for C9: the analysis of the log text "429". -/
theorem claim_C9_witness :
    ({ matched_keywords := ["429"], count := 1 } : PatternMatch).count
      = ({ matched_keywords := ["429"], count := 1 } : PatternMatch).matched_keywords.length
    ∧ 1 ≤ ({ matched_keywords := ["429"], count := 1 } : PatternMatch).matched_keywords.length
    ∧ ∃ kws, ("rate_limit", kws) ∈ error_patterns
        ∧ ({ matched_keywords := ["429"], count := 1 } : PatternMatch).matched_keywords.Sublist kws :=
  claim_C9_pattern_entry_invariants "429" "T" 1
    [("rate_limit", { matched_keywords := ["429"], count := 1 })] 3 "T" rfl
    "rate_limit" { matched_keywords := ["429"], count := 1 } (by simp)

/-- C10: the classification outcome (`patterns` and `total_patterns`)
depends only on the case-folded log text. -/
theorem claim_C10_case_insensitive (t₁ t₂ now₁ now₂ : String)
    (h : pyLower t₁ = pyLower t₂) :
    (analyze_error_patterns (some t₁) now₁).patternsOf
      = (analyze_error_patterns (some t₂) now₂).patternsOf
    ∧ (analyze_error_patterns (some t₁) now₁).totalOf
      = (analyze_error_patterns (some t₂) now₂).totalOf := by
  have hdata : t₁.data.map Char.toLower = t₂.data.map Char.toLower :=
    congrArg String.data h
  have hfp : foundPatterns t₁ = foundPatterns t₂ := by
    unfold foundPatterns categoryMatches
    rw [h]
  have hlen : t₁.data.length = t₂.data.length := by
    have h₁ := congrArg List.length hdata
    simpa using h₁
  have hfalsy : pyFalsyStr (some t₁) = pyFalsyStr (some t₂) := by
    show t₁.data.isEmpty = t₂.data.isEmpty
    cases h₁ : t₁.data with
    | nil =>
      cases h₂ : t₂.data with
      | nil => rfl
      | cons b m => rw [h₁, h₂] at hlen; simp at hlen
    | cons a l =>
      cases h₂ : t₂.data with
      | nil => rw [h₁, h₂] at hlen; simp at hlen
      | cons b m => rfl
  by_cases hf : pyFalsyStr (some t₁) = true
  · have hf₂ : pyFalsyStr (some t₂) = true := by rw [← hfalsy]; exact hf
    simp [analyze_error_patterns, hf, hf₂, AnalyzeResult.patternsOf, AnalyzeResult.totalOf]
  · have hf₂ : ¬ pyFalsyStr (some t₂) = true := by rw [← hfalsy]; exact hf
    simp [analyze_error_patterns, hf, hf₂, AnalyzeResult.patternsOf,
      AnalyzeResult.totalOf, hfp]

/-- Witness for C10: two spellings of the same text differing only in
case. -/
theorem claim_C10_witness :
    (analyze_error_patterns (some "RATE Limit") "A").patternsOf
      = (analyze_error_patterns (some "rate limit") "B").patternsOf
    ∧ (analyze_error_patterns (some "RATE Limit") "A").totalOf
      = (analyze_error_patterns (some "rate limit") "B").totalOf :=
  claim_C10_case_insensitive "RATE Limit" "rate limit" "A" "B" (by decide)

/-- Concrete 200 response with an unparsable JSON body, used against C1. -/
def cexPrompts : Response :=
  respOf 200 "garbage" (.error "Expecting value: line 1 column 1 (char 0)")

/-- Concrete healthy 200 response with a trivially parsable body. -/
def cexOkNull : Response := respOf 200 "{}" (.ok .null)

/-- Concrete 200 test-endpoint response reporting `gemini: true`. -/
def cexGem : Response := respOf 200 "{}" (.ok (.obj [("gemini", .bool true)]))

/-- Concrete 200 prompt-listing response with a well-formed prompts list. -/
def goodPrompts : Response :=
  respOf 200 "ok" (.ok (.obj [("data", .obj [("prompts", .arr [.null, .null])])]))

set_option maxRecDepth 40000 in
/-- Counterexample to C1 as stated: every probed endpoint returns 200, the
conduct HEAD is non-404, the third-party status check returns 200, and the
test endpoint returns 200 with a true boolean `gemini` field — yet because
the prompt-listing body fetched by the flow simulation fails to parse, the
flow section carries a failure marker and the report contains one
occurrence of "❌" (while still containing "✅ 正常" five times). -/
theorem claim_C1_counterexample :
    (cexOkNull.status_code = 200 ∧ cexPrompts.status_code = 200
      ∧ cexGem.status_code = 200)
    ∧ cexOkNull.status_code ≠ 404
    ∧ pyGet (.obj [("gemini", .bool true)]) "gemini" = .ok (some (.bool true))
    ∧ countOcc "❌" (generate_debug_report "https://example.com" "2026-01-01 00:00:00"
        (.ok cexOkNull) (.ok cexOkNull) (.ok cexGem) (.ok cexPrompts) (.ok cexOkNull)
        (.ok cexOkNull) (.ok cexGem)) = 1
    ∧ countOcc "✅ 正常" (generate_debug_report "https://example.com" "2026-01-01 00:00:00"
        (.ok cexOkNull) (.ok cexOkNull) (.ok cexGem) (.ok cexPrompts) (.ok cexOkNull)
        (.ok cexOkNull) (.ok cexGem)) = 5 :=
  ⟨⟨rfl, rfl, rfl⟩, by decide, rfl, by decide, by decide⟩

set_option maxRecDepth 40000 in
/-- C1 (amended): for a run of `generate_debug_report` in which every probed
endpoint responds with HTTP 200, the prompt-listing body parses and the
prompt count can be extracted from it, the conduct HEAD is non-404, the
third-party status check returns 200, and the test endpoint returns 200
with a true boolean `gemini` field — and the base URL and timestamp contain
neither marker character — the report contains "✅ 正常" exactly five times
(three endpoints, two dependencies) and "❌" not at all. -/
theorem claim_C1_amended_healthy_report_markers
    (base_url ts : String)
    (hb₁ : '✅' ∉ base_url.data) (hb₂ : '❌' ∉ base_url.data)
    (ht₁ : '✅' ∉ ts.data) (ht₂ : '❌' ∉ ts.data)
    (rh rp rt rfp rhd rn rg : Response)
    (h1 : rh.status_code = 200) (h2 : rp.status_code = 200)
    (h3 : rt.status_code = 200) (h4 : rfp.status_code = 200)
    (pd : Json) (h5 : rfp.body = .ok pd) (n : Nat) (h6 : promptsCount pd = .ok n)
    (h7 : rhd.status_code ≠ 404)
    (h8 : rn.status_code = 200)
    (h9 : rg.status_code = 200) (td : Json) (h10 : rg.body = .ok td)
    (h11 : pyGet td "gemini" = .ok (some (.bool true))) :
    countOcc "✅ 正常" (generate_debug_report base_url ts (.ok rh) (.ok rp) (.ok rt)
        (.ok rfp) (.ok rhd) (.ok rn) (.ok rg)) = 5
    ∧ countOcc "❌" (generate_debug_report base_url ts (.ok rh) (.ok rp) (.ok rt)
        (.ok rfp) (.ok rhd) (.ok rn) (.ok rg)) = 0 := by
  have s1 : (probeEndpoint (.ok rh)).success = true := by
    rw [probeEndpoint_ok_success, h1]; rfl
  have s2 : (probeEndpoint (.ok rp)).success = true := by
    rw [probeEndpoint_ok_success, h2]; rfl
  have s3 : (probeEndpoint (.ok rt)).success = true := by
    rw [probeEndpoint_ok_success, h3]; rfl
  have hex : (rhd.status_code != 404) = true := by
    simp only [bne_iff_ne, ne_eq]
    exact h7
  have hflow : (simulate_research_flow "テスト事業" (.ok rfp) (.ok rhd)).1 =
      .ok n (rhd.status_code != 404) true "テスト事業" := by
    simp [simulate_research_flow, h4, h5, h6]
  have hgem : (geminiCheck (.ok rg)).status = "up" := by
    simp [geminiCheck, h9, h10, h11, Json.truthy]
  have hlines : report_lines base_url ts
      (test_basic_endpoints (.ok rh) (.ok rp) (.ok rt))
      (simulate_research_flow "テスト事業" (.ok rfp) (.ok rhd)).1
      (check_api_dependencies (.ok rn) (.ok rg)) =
      ["# 🔍 Market Research System - デバッグレポート",
       "**生成日時**: " ++ ts,
       "**対象環境**: " ++ base_url,
       "",
       "## 📊 基本エンドポイントテスト",
       "- **" ++ "health" ++ "**: ✅ 正常",
       "- **" ++ "prompts" ++ "**: ✅ 正常",
       "- **" ++ "test" ++ "**: ✅ 正常",
       "",
       "## 🧪 調査フローテスト",
       "- ✅ 調査フロー: 基本構造は正常",
       "  - プロンプト数: " ++ natRepr n,
       "  - 調査エンドポイント: " ++ "存在",
       "",
       "## 🔗 外部API依存関係",
       "- **" ++ pyUpper "notion" ++ "**: ✅ 正常",
       "- **" ++ pyUpper "gemini" ++ "**: ✅ 正常",
       "",
       "## 🚨 推奨アクション",
       "",
       "### 異常が検出された場合:",
       "1. Railway ダッシュボードでログを確認",
       "2. 環境変数の設定を確認",
       "3. API制限の状況を確認",
       "4. このレポートを元にバグレポートを作成",
       "",
       "### 正常な場合:",
       "1. 具体的なバグの再現手順を詳細に記録",
       "2. ブラウザのDeveloper Toolsでエラーを確認",
       "3. 特定の操作でのみ発生する問題かを調査",
       "",
       "**レポート生成ツール**: `python3 debug_tools.py --full-report`"] := by
    rw [hflow]
    simp [report_lines, test_basic_endpoints, endpointLines, flowLines, hex,
      check_api_dependencies, depLines, notionCheck, h8, hgem, s1, s2, s3]
  constructor
  · simp only [generate_debug_report]
    rw [hlines, countOcc, joinLines_data,
      show ("✅ 正常").data = '✅' :: (" 正常").data from rfl,
      countSub_joinNl '✅' (" 正常").data (by decide)]
    simp only [List.map_cons, List.map_nil, List.sum_cons, List.sum_nil,
      String.data_append]
    have z1 : countSub ('✅' :: (" 正常").data) (("**生成日時**: ").data ++ ts.data) = 0 :=
      countSub_of_head_not_mem '✅' ((" 正常").data) _ (by
        intro hm
        rcases List.mem_append.mp hm with hm | hm
        · revert hm; decide
        · exact ht₁ hm)
    have z2 : countSub ('✅' :: (" 正常").data) (("**対象環境**: ").data ++ base_url.data) = 0 :=
      countSub_of_head_not_mem '✅' ((" 正常").data) _ (by
        intro hm
        rcases List.mem_append.mp hm with hm | hm
        · revert hm; decide
        · exact hb₁ hm)
    have z3 : countSub ('✅' :: (" 正常").data)
        (("  - プロンプト数: ").data ++ (natRepr n).data) = 0 :=
      countSub_of_head_not_mem '✅' ((" 正常").data) _ (by
        intro hm
        rcases List.mem_append.mp hm with hm | hm
        · revert hm; decide
        · have hd := natRepr_digits n _ hm
          revert hd; decide)
    rw [z1, z2, z3]
    decide
  · simp only [generate_debug_report]
    rw [hlines, countOcc, joinLines_data,
      show ("❌").data = '❌' :: ([] : List Char) from rfl,
      countSub_joinNl '❌' [] (by decide)]
    simp only [List.map_cons, List.map_nil, List.sum_cons, List.sum_nil,
      String.data_append]
    have z1 : countSub ('❌' :: ([] : List Char)) (("**生成日時**: ").data ++ ts.data) = 0 :=
      countSub_of_head_not_mem '❌' [] _ (by
        intro hm
        rcases List.mem_append.mp hm with hm | hm
        · revert hm; decide
        · exact ht₂ hm)
    have z2 : countSub ('❌' :: ([] : List Char)) (("**対象環境**: ").data ++ base_url.data) = 0 :=
      countSub_of_head_not_mem '❌' [] _ (by
        intro hm
        rcases List.mem_append.mp hm with hm | hm
        · revert hm; decide
        · exact hb₂ hm)
    have z3 : countSub ('❌' :: ([] : List Char))
        (("  - プロンプト数: ").data ++ (natRepr n).data) = 0 :=
      countSub_of_head_not_mem '❌' [] _ (by
        intro hm
        rcases List.mem_append.mp hm with hm | hm
        · revert hm; decide
        · have hd := natRepr_digits n _ hm
          revert hd; decide)
    rw [z1, z2, z3]
    decide

set_option maxRecDepth 40000 in
/-- Witness for the amended C1 at fully healthy concrete inputs. -/
theorem claim_C1_witness :
    countOcc "✅ 正常" (generate_debug_report "https://example.com" "2026-01-01 00:00:00"
        (.ok cexOkNull) (.ok cexOkNull) (.ok cexGem) (.ok goodPrompts) (.ok cexOkNull)
        (.ok cexOkNull) (.ok cexGem)) = 5
    ∧ countOcc "❌" (generate_debug_report "https://example.com" "2026-01-01 00:00:00"
        (.ok cexOkNull) (.ok cexOkNull) (.ok cexGem) (.ok goodPrompts) (.ok cexOkNull)
        (.ok cexOkNull) (.ok cexGem)) = 0 :=
  claim_C1_amended_healthy_report_markers "https://example.com" "2026-01-01 00:00:00"
    (by decide) (by decide) (by decide) (by decide)
    cexOkNull cexOkNull cexGem goodPrompts cexOkNull cexOkNull cexGem
    rfl rfl rfl rfl
    (.obj [("data", .obj [("prompts", .arr [.null, .null])])]) rfl 2 rfl
    (by decide) rfl rfl
    (.obj [("gemini", .bool true)]) rfl rfl

end DebugTools
